import Mathlib

/-!
Verification of the inventory stock-mutation and order-fulfillment workflow of
the minimum_inventory repository, together with two frontend components
(the Redux auth slice and the Sidebar navigation) whose sources are in the
repository. The backend core (Stock Mutator, Ledger Entry Writer, Low-Stock
Evaluator, Order Status Machine, Dependency Guard) is not present among the
source files, so it is modelled from the specification; the frontend parts are
embedded directly from the TypeScript sources.
-/

/-- Error taxonomy of the core, from the specification section 7:
NotFound, ValidationError, InsufficientStock, InvalidTransition,
FulfillmentFailed (naming the offending item), Conflict. -/
inductive StockErr where
  | notFound
  | validationError
  | insufficientStock
  | invalidTransition
  | fulfillmentFailed (itemId : Nat)
  | conflict
deriving DecidableEq, Repr

/-- Modelled from the spec: an InventoryItem has an identity, an on-hand
quantity (a non-negative integer, carried here as Int so that signed deltas
can be applied and the non-negativity invariant stated), a reorder threshold
and an owning supplier. SKU, barcode, cost and category do not participate in
the claims and are omitted. -/
structure InventoryItem where
  id : Nat
  quantity : Int
  reorderThreshold : Int
  supplierId : Nat
deriving DecidableEq, Repr

/-- Modelled from the spec: an immutable ledger record
{item reference, delta, resulting quantity, reason, actor}; the timestamp is
supplied by the external persistence layer and is omitted. -/
structure LedgerEntry where
  itemId : Nat
  delta : Int
  resultingQuantity : Int
  reason : String
  actor : String
deriving DecidableEq, Repr

/-- Order type: purchase or sales. -/
inductive OrderType where
  | purchase
  | sales
deriving DecidableEq, Repr

/-- Order status enum from the specification section 4.4. -/
inductive OrderStatus where
  | draft
  | pending
  | confirmed
  | shipped
  | received
  | cancelled
  | closed
deriving DecidableEq, Repr

/-- Modelled from the spec: a line item of an order,
{item reference, quantity, unit price}. -/
structure OrderItem where
  itemId : Nat
  quantity : Nat
  unitPrice : Int
deriving DecidableEq, Repr

/-- Modelled from the spec: an Order with identity, generated order number,
type, status, optional owning supplier reference and its line items. -/
structure Order where
  id : Nat
  number : String
  otype : OrderType
  status : OrderStatus
  supplierId : Option Nat
  lineItems : List OrderItem
deriving DecidableEq, Repr

/-- Modelled from the spec: the persistent state the core operates on —
inventory items, the append-only ledger, orders, suppliers (by id), and the
stream of low-stock notification requests handed to the external task queue
(recorded here as the list of item ids notified, in emission order). -/
structure InvState where
  items : List InventoryItem
  ledger : List LedgerEntry
  orders : List Order
  suppliers : List Nat
  notifications : List Nat
deriving DecidableEq, Repr

/-- Look up an item by id. -/
def findItem (s : InvState) (itemId : Nat) : Option InventoryItem :=
  s.items.find? (fun it => it.id == itemId)

/-- The on-hand quantity of an item, when it exists. -/
def findQuantity (s : InvState) (itemId : Nat) : Option Int :=
  (findItem s itemId).map InventoryItem.quantity

/-- The status of an order, when it exists. -/
def orderStatusOf (s : InvState) (orderId : Nat) : Option OrderStatus :=
  (s.orders.find? (fun o => o.id == orderId)).map Order.status

/-- Modelled from the spec: the Stock Mutator,
adjust(item_id, delta, reason, actor) -> new_quantity.
The delta must be a non-zero signed integer (ValidationError otherwise); a
missing item is NotFound; a delta that would drive the quantity negative is
InsufficientStock. On success the item quantity is updated, exactly one
ledger entry is appended with the delta and the resulting quantity, and the
Low-Stock Evaluator runs: is_low = (quantity <= reorder_threshold), and an
edge-triggered notification is emitted when the item became low by this
mutation and was not low before it. -/
def adjust (s : InvState) (itemId : Nat) (delta : Int) (reason actor : String) :
    Except StockErr (InvState × Int) :=
  if delta = 0 then .error .validationError
  else
    match findItem s itemId with
    | none => .error .notFound
    | some it =>
      if it.quantity + delta < 0 then .error .insufficientStock
      else
        let newQ := it.quantity + delta
        let entry : LedgerEntry :=
          { itemId := itemId, delta := delta, resultingQuantity := newQ,
            reason := reason, actor := actor }
        let items2 := s.items.map
          (fun j => if j.id == itemId then { j with quantity := newQ } else j)
        let notifs2 :=
          if newQ ≤ it.reorderThreshold ∧ ¬ it.quantity ≤ it.reorderThreshold
          then s.notifications ++ [itemId]
          else s.notifications
        .ok ({ s with
                 items := items2
                 ledger := s.ledger ++ [entry]
                 notifications := notifs2 }, newQ)

/-- Transactional run of adjust: on any error the unit of work rolls back and
the pre-call state is kept. -/
def adjustRun (s : InvState) (itemId : Nat) (delta : Int) (reason actor : String) :
    InvState × Option StockErr :=
  match adjust s itemId delta reason actor with
  | .ok (s2, _) => (s2, none)
  | .error e => (s, some e)

/-- Apply a sequence of adjust calls, stopping at the first failure. -/
def applyAdjusts (s : InvState) : List (Nat × Int × String × String) → Except StockErr InvState
  | [] => .ok s
  | (i, d, r, a) :: rest =>
    match adjust s i d r a with
    | .error e => .error e
    | .ok (s2, _) => applyAdjusts s2 rest

/-- All item quantities in the state are non-negative. -/
def itemsNonneg (s : InvState) : Prop :=
  ∀ it ∈ s.items, 0 ≤ it.quantity

instance (s : InvState) : Decidable (itemsNonneg s) := by
  unfold itemsNonneg; infer_instance

/-- Modelled from the spec: the legal edges of the Order Status Machine,
draft -> pending -> {confirmed, cancelled};
confirmed -> {shipped (sales only) | received (purchase only), cancelled};
shipped -> closed; received -> closed. cancelled and closed are terminal. -/
def legalEdge (t : OrderType) (src tgt : OrderStatus) : Bool :=
  match src, tgt with
  | .draft, .pending => true
  | .pending, .confirmed => true
  | .pending, .cancelled => true
  | .confirmed, .shipped => t == .sales
  | .confirmed, .received => t == .purchase
  | .confirmed, .cancelled => true
  | .shipped, .closed => true
  | .received, .closed => true
  | _, _ => false

/-- A transition to this status triggers stock mutation: shipped for a sales
order, received for a purchase order. -/
def isFulfillmentTarget (t : OrderType) (tgt : OrderStatus) : Bool :=
  match t, tgt with
  | .sales, .shipped => true
  | .purchase, .received => true
  | _, _ => false

/-- Modelled from the spec: the signed delta a line item contributes on
fulfillment — purchase receipt applies a positive delta (stock in), sales
shipment applies a negative delta (stock out). -/
def lineDelta (t : OrderType) (li : OrderItem) : Int :=
  match t with
  | .purchase => (li.quantity : Int)
  | .sales => -(li.quantity : Int)

/-- Modelled from the spec: the mutation reason is tagged with the order
number. -/
def fulfillReason (number : String) : String :=
  "order " ++ number

/-- Modelled from the spec: fulfillment invokes the Stock Mutator once per
line item, in order; the first failing line item aborts the whole transition
as FulfillmentFailed naming that item. -/
def applyLines (t : OrderType) (number actor : String) :
    InvState → List OrderItem → Except StockErr InvState
  | s, [] => .ok s
  | s, li :: rest =>
    match adjust s li.itemId (lineDelta t li) (fulfillReason number) actor with
    | .error _ => .error (.fulfillmentFailed li.itemId)
    | .ok (s2, _) => applyLines t number actor s2 rest

/-- Modelled from the spec: the Order Status Machine,
transition(order_id, target_status, actor) -> order.
A missing order is NotFound; a requested edge outside the legal set is
InvalidTransition; a fulfillment-relevant transition first applies every line
item through the Stock Mutator (aborting as FulfillmentFailed when any line
item fails); on success the order status becomes the target. -/
def transition (s : InvState) (orderId : Nat) (target : OrderStatus) (actor : String) :
    Except StockErr InvState :=
  match s.orders.find? (fun o => o.id == orderId) with
  | none => .error .notFound
  | some o =>
    if legalEdge o.otype o.status target then
      match
        (if isFulfillmentTarget o.otype target then
          applyLines o.otype o.number actor s o.lineItems
        else .ok s) with
      | .error e => .error e
      | .ok s2 =>
        .ok { s2 with
                orders := s2.orders.map
                  (fun p => if p.id == orderId then { p with status := target } else p) }
    else .error .invalidTransition

/-- Transactional run of transition: the whole transition is a single unit of
work, so on any error it rolls back and the pre-call state is kept. -/
def transitionRun (s : InvState) (orderId : Nat) (target : OrderStatus) (actor : String) :
    InvState × Option StockErr :=
  match transition s orderId target actor with
  | .ok s2 => (s2, none)
  | .error e => (s, some e)

/-- Some InventoryItem references the supplier. -/
def supplierHasItem (s : InvState) (supId : Nat) : Bool :=
  s.items.any (fun it => it.supplierId == supId)

/-- Some non-cancelled Order references the supplier. -/
def supplierHasActiveOrder (s : InvState) (supId : Nat) : Bool :=
  s.orders.any (fun o => o.supplierId == some supId && o.status != .cancelled)

/-- Modelled from the spec: the Dependency Guard for suppliers — a supplier
may not be deleted while any InventoryItem references it or any non-cancelled
Order references it; on conflict the deletion fails with Conflict, otherwise
the supplier is removed. -/
def deleteSupplier (s : InvState) (supId : Nat) : Except StockErr InvState :=
  if ¬ s.suppliers.contains supId then .error .notFound
  else if supplierHasItem s supId || supplierHasActiveOrder s supId then
    .error .conflict
  else .ok { s with suppliers := s.suppliers.filter (fun x => x != supId) }

/-- Transactional run of deleteSupplier: on any error the pre-call state is
kept. -/
def deleteSupplierRun (s : InvState) (supId : Nat) : InvState × Option StockErr :=
  match deleteSupplier s supId with
  | .ok s2 => (s2, none)
  | .error e => (s, some e)

/-- The role union of the frontend User interface:
admin | manager | staff (authSlice). -/
inductive UserRole where
  | admin
  | manager
  | staff
deriving DecidableEq, Repr

/-- The User interface of the frontend auth slice: id, username, email,
full_name, role, is_active, is_verified (created_at and last_login are plain
strings that no claim touches and are omitted). -/
structure AuthUser where
  id : Nat
  username : String
  email : String
  fullName : String
  role : UserRole
  isActive : Bool
  isVerified : Bool
deriving DecidableEq, Repr

/-- The AuthState of the Redux auth slice:
{user, token, isLoading, error}. -/
structure AuthState where
  user : Option AuthUser
  token : Option String
  isLoading : Bool
  error : Option String
deriving DecidableEq, Repr

/-- login.pending reducer: isLoading := true, error := null. -/
def loginPending (s : AuthState) : AuthState :=
  { s with isLoading := true, error := none }

/-- login.fulfilled reducer: isLoading := false, token := payload access
token, error := null. -/
def loginFulfilled (s : AuthState) (accessToken : String) : AuthState :=
  { s with isLoading := false, token := some accessToken, error := none }

/-- login.rejected reducer: isLoading := false, error := payload message;
user and token are not touched. -/
def loginRejected (s : AuthState) (msg : String) : AuthState :=
  { s with isLoading := false, error := some msg }

/-- getCurrentUser.pending reducer: isLoading := true. -/
def getCurrentUserPending (s : AuthState) : AuthState :=
  { s with isLoading := true }

/-- getCurrentUser.fulfilled reducer: isLoading := false, user := payload,
error := null. -/
def getCurrentUserFulfilled (s : AuthState) (u : AuthUser) : AuthState :=
  { s with isLoading := false, user := some u, error := none }

/-- getCurrentUser.rejected reducer: isLoading := false, user := null,
token := null (the token is also removed from localStorage, a side effect
outside this state). The error field is not touched. -/
def getCurrentUserRejected (s : AuthState) : AuthState :=
  { s with isLoading := false, user := none, token := none }

/-- logout.fulfilled reducer: user := null, token := null,
isLoading := false, error := null. -/
def logoutFulfilled (s : AuthState) : AuthState :=
  { s with user := none, token := none, isLoading := false, error := none }

/-- A navigation entry of the Sidebar (icon omitted). -/
structure NavItem where
  name : String
  href : String
deriving DecidableEq, Repr

/-- The navigation constant of Sidebar.tsx. -/
def sidebarNavigation : List NavItem :=
  [ { name := "Dashboard", href := "/dashboard" },
    { name := "Inventory", href := "/inventory" },
    { name := "Orders", href := "/orders" },
    { name := "Suppliers", href := "/suppliers" },
    { name := "Users", href := "/users" } ]

/-- The Sidebar render loop: an entry is skipped (returns null) exactly when
its name is Users and the optional user is absent or has a role other than
admin; every other entry renders as a NavLink. -/
def renderedNavigation (user : Option AuthUser) : List NavItem :=
  sidebarNavigation.filter
    (fun item => !(item.name == "Users" && !(user.map AuthUser.role == some .admin)))

def exItem1 : InventoryItem :=
  { id := 1, quantity := 10, reorderThreshold := 3, supplierId := 7 }

def exSalesOrder : Order :=
  { id := 20, number := "SO-1", otype := .sales, status := .confirmed,
    supplierId := none, lineItems := [{ itemId := 1, quantity := 99, unitPrice := 5 }] }

def exPurchaseOrder : Order :=
  { id := 21, number := "PO-1", otype := .purchase, status := .confirmed,
    supplierId := some 7,
    lineItems := [{ itemId := 1, quantity := 5, unitPrice := 2 },
                  { itemId := 1, quantity := 2, unitPrice := 2 }] }

def exDraftOrder : Order :=
  { id := 22, number := "PO-2", otype := .purchase, status := .draft,
    supplierId := some 7, lineItems := [] }

def exState : InvState :=
  { items := [exItem1], ledger := [], orders := [exSalesOrder, exPurchaseOrder, exDraftOrder],
    suppliers := [7, 8], notifications := [] }


def c1Ops : List (Nat × Int × String × String) := [(1, -9, "w", "alice")]

def c1Result : InvState :=
  { items := [{ id := 1, quantity := 1, reorderThreshold := 3, supplierId := 7 }],
    ledger := [{ itemId := 1, delta := -9, resultingQuantity := 1, reason := "w", actor := "alice" }],
    orders := exState.orders, suppliers := [7, 8], notifications := [1] }

def c3Result : InvState :=
  { items := [{ id := 1, quantity := 15, reorderThreshold := 3, supplierId := 7 }],
    ledger := [{ itemId := 1, delta := 5, resultingQuantity := 15, reason := "r", actor := "alice" }],
    orders := exState.orders, suppliers := [7, 8], notifications := [] }

def c7Result : InvState :=
  { items := [{ id := 1, quantity := 17, reorderThreshold := 3, supplierId := 7 }],
    ledger := [{ itemId := 1, delta := 5, resultingQuantity := 15, reason := "order PO-1", actor := "bob" },
               { itemId := 1, delta := 2, resultingQuantity := 17, reason := "order PO-1", actor := "bob" }],
    orders := [exSalesOrder, { exPurchaseOrder with status := .received }, exDraftOrder],
    suppliers := [7, 8], notifications := [] }

theorem adjust_ok_elim {s : InvState} {itemId : Nat} {delta : Int} {reason actor : String}
    {s2 : InvState} {q : Int}
    (h : adjust s itemId delta reason actor = .ok (s2, q)) :
    ∃ it, findItem s itemId = some it ∧ delta ≠ 0 ∧ 0 ≤ it.quantity + delta ∧
      q = it.quantity + delta ∧
      s2.items = s.items.map
        (fun j => if j.id == itemId then { j with quantity := q } else j) ∧
      s2.ledger = s.ledger ++
        [{ itemId := itemId, delta := delta, resultingQuantity := q,
           reason := reason, actor := actor }] ∧
      s2.orders = s.orders ∧ s2.suppliers = s.suppliers ∧
      s2.notifications =
        (if q ≤ it.reorderThreshold ∧ ¬ it.quantity ≤ it.reorderThreshold
         then s.notifications ++ [itemId] else s.notifications) := by
  by_cases h0 : delta = 0
  · simp [adjust, h0] at h
  · rcases hf : findItem s itemId with _ | it
    · simp [adjust, h0, hf] at h
    · by_cases hneg : it.quantity + delta < 0
      · simp [adjust, h0, hf, hneg] at h
      · simp [adjust, h0, hf, hneg] at h
        obtain ⟨hs2, hq⟩ := h
        subst hq
        subst hs2
        exact ⟨it, rfl, h0, by omega, rfl, by simp, by simp, rfl, rfl, by simp [not_le]⟩

theorem adjust_preserves_nonneg {s : InvState} {itemId : Nat} {delta : Int}
    {reason actor : String} {s2 : InvState} {q : Int}
    (hinv : itemsNonneg s) (h : adjust s itemId delta reason actor = .ok (s2, q)) :
    itemsNonneg s2 := by
  obtain ⟨it, _, _, hpos, hq, hitems, -⟩ := adjust_ok_elim h
  intro j hj
  rw [hitems] at hj
  simp only [List.mem_map] at hj
  obtain ⟨j0, hj0, hj0e⟩ := hj
  subst hj0e
  split
  · simpa using by omega
  · exact hinv j0 hj0

theorem applyAdjusts_nonneg (ops : List (Nat × Int × String × String)) :
    ∀ s s2 : InvState, itemsNonneg s → applyAdjusts s ops = .ok s2 → itemsNonneg s2 := by
  induction ops with
  | nil => intro s s2 hinv h; simp [applyAdjusts] at h; exact h ▸ hinv
  | cons op rest ih =>
    intro s s2 hinv h
    obtain ⟨i, d, r, a⟩ := op
    unfold applyAdjusts at h
    rcases ha : adjust s i d r a with e | ⟨s1, q⟩
    · rw [ha] at h; exact absurd h (by simp)
    · rw [ha] at h
      exact ih s1 s2 (adjust_preserves_nonneg hinv ha) h






theorem findItem_adjust {s : InvState} {itemId : Nat} {delta : Int} {reason actor : String}
    {s2 : InvState} {q : Int}
    (h : adjust s itemId delta reason actor = .ok (s2, q)) :
    ∃ it, findItem s itemId = some it ∧
      findItem s2 itemId = some { it with quantity := q } := by
  obtain ⟨it, hf, _, _, hq, hitems, -⟩ := adjust_ok_elim h
  refine ⟨it, hf, ?_⟩
  have hit : it.id = itemId := by
    have := List.find?_some (p := fun j : InventoryItem => j.id == itemId) hf
    simpa using this
  unfold findItem at hf ⊢
  rw [hitems, List.find?_map]
  have hcomp : ((fun j : InventoryItem => j.id == itemId) ∘
      (fun j : InventoryItem => if j.id == itemId then { j with quantity := q } else j)) =
      (fun j : InventoryItem => j.id == itemId) := by
    funext j
    by_cases hj : j.id = itemId <;> simp [hj]
  rw [hcomp, hf]
  simp [hit]


theorem applyLines_ledger (t : OrderType) (number actor : String) :
    ∀ (lines : List OrderItem) (s s2 : InvState),
      applyLines t number actor s lines = .ok s2 →
      (∃ es, s2.ledger = s.ledger ++ es ∧
        es.map (fun e => (e.itemId, e.delta, e.reason)) =
          lines.map (fun li => (li.itemId, lineDelta t li, fulfillReason number))) ∧
      s2.orders = s.orders ∧ s2.suppliers = s.suppliers := by
  intro lines
  induction lines with
  | nil =>
    intro s s2 h
    simp [applyLines] at h
    subst h
    exact ⟨⟨[], by simp⟩, rfl, rfl⟩
  | cons li rest ih =>
    intro s s2 h
    unfold applyLines at h
    rcases ha : adjust s li.itemId (lineDelta t li) (fulfillReason number) actor with e | ⟨s1, q⟩
    · rw [ha] at h; exact absurd h (by simp)
    · rw [ha] at h
      obtain ⟨⟨es, hes, hmap⟩, ho, hs⟩ := ih s1 s2 h
      obtain ⟨it, hf0, -, -, hq, -, hl, ho1, hs1, -⟩ := adjust_ok_elim ha
      refine ⟨⟨{ itemId := li.itemId, delta := lineDelta t li, resultingQuantity := q,
                 reason := fulfillReason number, actor := actor } :: es, ?_, ?_⟩, ?_, ?_⟩
      · rw [hes, hl]; simp
      · simp [hmap]
      · rw [ho, ho1]
      · rw [hs, hs1]

theorem transition_ok_elim {s : InvState} {orderId : Nat} {tgt : OrderStatus} {actor : String}
    {s2 : InvState} (h : transition s orderId tgt actor = .ok s2) :
    ∃ o s1, s.orders.find? (fun p => p.id == orderId) = some o ∧
      legalEdge o.otype o.status tgt = true ∧
      ((isFulfillmentTarget o.otype tgt = true ∧
          applyLines o.otype o.number actor s o.lineItems = .ok s1) ∨
        (isFulfillmentTarget o.otype tgt = false ∧ s1 = s)) ∧
      s2 = { s1 with orders := s1.orders.map (fun p => if p.id == orderId then { p with status := tgt } else p) } := by
  rcases hf : s.orders.find? (fun p => p.id == orderId) with _ | o
  · simp [transition, hf] at h
  · simp only [transition, hf] at h
    by_cases hleg : legalEdge o.otype o.status tgt = true
    · rw [if_pos hleg] at h
      by_cases hful : isFulfillmentTarget o.otype tgt = true
      · rw [if_pos hful] at h
        rcases ha : applyLines o.otype o.number actor s o.lineItems with e | s1
        · rw [ha] at h; exact absurd h (by simp)
        · rw [ha] at h
          simp at h
          refine ⟨o, s1, hf, hleg, Or.inl ⟨hful, ha⟩, ?_⟩
          simpa using h.symm
      · rw [if_neg hful] at h
        simp at h
        refine ⟨o, s, hf, hleg, Or.inr ⟨by simpa using hful, rfl⟩, ?_⟩
        simpa using h.symm
    · rw [if_neg hleg] at h
      exact absurd h (by simp)

theorem applyLines_error_item (t : OrderType) (number actor : String) :
    ∀ (lines : List OrderItem) (s : InvState) (bad : Nat),
      applyLines t number actor s lines = .error (.fulfillmentFailed bad) →
      ∃ li, li ∈ lines ∧ bad = li.itemId := by
  intro lines
  induction lines with
  | nil => intro s bad h; simp [applyLines] at h
  | cons li rest ih =>
    intro s bad h
    unfold applyLines at h
    rcases ha : adjust s li.itemId (lineDelta t li) (fulfillReason number) actor with e | ⟨s1, q⟩
    · rw [ha] at h
      simp at h
      exact ⟨li, by simp, h.symm⟩
    · rw [ha] at h
      obtain ⟨li2, hmem, hbad⟩ := ih s1 bad h
      exact ⟨li2, by simp [hmem], hbad⟩

/-- Claim C1: starting from any state whose item quantities are all
non-negative, every sequence of successful adjust operations leaves every
item quantity a non-negative integer; since every prefix of a successful
sequence is itself a successful sequence, no reachable state has a negative
quantity. -/
theorem c1_quantity_nonneg (s s2 : InvState) (ops : List (Nat × Int × String × String))
    (hinv : itemsNonneg s) (h : applyAdjusts s ops = .ok s2) :
    itemsNonneg s2 :=
  applyAdjusts_nonneg ops s s2 hinv h



theorem c1_quantity_nonneg_witness : itemsNonneg c1Result :=
  c1_quantity_nonneg exState c1Result c1Ops (by decide) (by rfl)

/-- Claim C3: every successful adjust appends exactly one ledger entry whose
delta is the applied delta and whose resulting quantity equals the item
quantity immediately after the mutation; a transition only ever appends to
the ledger and a supplier deletion leaves it untouched, so existing entries
are never updated or deleted by any operation. -/
theorem c3_ledger_append_only :
    (∀ (s : InvState) (itemId : Nat) (delta : Int) (reason actor : String)
        (s2 : InvState) (q : Int),
        adjust s itemId delta reason actor = .ok (s2, q) →
        s2.ledger = s.ledger ++
          [{ itemId := itemId, delta := delta, resultingQuantity := q,
             reason := reason, actor := actor }] ∧
        findQuantity s2 itemId = some q)
    ∧ (∀ (s : InvState) (orderId : Nat) (tgt : OrderStatus) (actor : String) (s2 : InvState),
        transition s orderId tgt actor = .ok s2 → ∃ es, s2.ledger = s.ledger ++ es)
    ∧ (∀ (s : InvState) (supId : Nat) (s2 : InvState),
        deleteSupplier s supId = .ok s2 → s2.ledger = s.ledger) := by
  refine ⟨?_, ?_, ?_⟩
  · intro s itemId delta reason actor s2 q h
    obtain ⟨it, hf, -, -, hq, -, hl, -⟩ := adjust_ok_elim h
    refine ⟨hl, ?_⟩
    obtain ⟨it2, hf2, hf3⟩ := findItem_adjust h
    rw [findQuantity, hf3]
    rfl
  · intro s orderId tgt actor s2 h
    obtain ⟨o, s1, -, -, hcase, hs2⟩ := transition_ok_elim h
    rcases hcase with ⟨-, ha⟩ | ⟨-, he⟩
    · obtain ⟨⟨es, hes, -⟩, -, -⟩ := applyLines_ledger o.otype o.number actor o.lineItems s s1 ha
      exact ⟨es, by rw [hs2]; exact hes⟩
    · exact ⟨[], by rw [hs2, he]; simp⟩
  · intro s supId s2 h
    unfold deleteSupplier at h
    split at h
    · exact absurd h (by simp)
    · split at h
      · exact absurd h (by simp)
      · simp at h
        rw [← h]


theorem c3_witness :
    c3Result.ledger = exState.ledger ++
      [{ itemId := 1, delta := 5, resultingQuantity := 15, reason := "r", actor := "alice" }]
    ∧ findQuantity c3Result 1 = some 15 :=
  c3_ledger_append_only.1 exState 1 5 "r" "alice" c3Result 15 (by rfl)

/-- Claim C4: for an existing item with non-negative quantity q and any
delta with q + delta < 0, adjust fails with InsufficientStock and the
transactional run keeps the quantity at q; in particular the delta
-(q + 1) always fails this way. -/
theorem c4_insufficient_stock (s : InvState) (it : InventoryItem) (delta : Int)
    (reason actor : String)
    (hf : findItem s it.id = some it) (hq : 0 ≤ it.quantity)
    (hneg : it.quantity + delta < 0) :
    adjust s it.id delta reason actor = .error .insufficientStock
    ∧ (adjustRun s it.id delta reason actor).1 = s
    ∧ findQuantity (adjustRun s it.id delta reason actor).1 it.id = some it.quantity
    ∧ adjust s it.id (-(it.quantity + 1)) reason actor = .error .insufficientStock := by
  have h0 : delta ≠ 0 := by omega
  have h1 : adjust s it.id delta reason actor = .error .insufficientStock := by
    simp [adjust, h0, hf, hneg]
  have h2 : (adjustRun s it.id delta reason actor).1 = s := by
    simp [adjustRun, h1]
  refine ⟨h1, h2, ?_, ?_⟩
  · rw [h2, findQuantity, hf]
    rfl
  · have h0b : -(it.quantity + 1) ≠ 0 := by omega
    have hnegb : it.quantity + -(it.quantity + 1) < 0 := by omega
    simp [adjust, h0b, hf, hnegb]
    omega

theorem c4_witness :
    adjust exState exItem1.id (-11) "r" "bob" = .error .insufficientStock
    ∧ (adjustRun exState exItem1.id (-11) "r" "bob").1 = exState
    ∧ findQuantity (adjustRun exState exItem1.id (-11) "r" "bob").1 exItem1.id
        = some exItem1.quantity
    ∧ adjust exState exItem1.id (-(exItem1.quantity + 1)) "r" "bob"
        = .error .insufficientStock :=
  c4_insufficient_stock exState exItem1 (-11) "r" "bob" (by decide) (by decide) (by decide)

/-- Claim C5: legalEdge holds exactly on the edges listed in the
specification; a successful transition implies its edge is legal, and a
request outside the edge set (for example draft directly to received, or any
move out of cancelled or closed, none of which appear among the edges) fails
with InvalidTransition and leaves the state and the order status
unchanged. -/
theorem c5_transition_edges (s : InvState) (o : Order) (tgt : OrderStatus) (actor : String)
    (hf : s.orders.find? (fun p => p.id == o.id) = some o) :
    (∀ (t : OrderType) (src tgt2 : OrderStatus),
       legalEdge t src tgt2 = true ↔
         ((src = .draft ∧ tgt2 = .pending) ∨ (src = .pending ∧ tgt2 = .confirmed) ∨
          (src = .pending ∧ tgt2 = .cancelled) ∨
          (src = .confirmed ∧ tgt2 = .shipped ∧ t = .sales) ∨
          (src = .confirmed ∧ tgt2 = .received ∧ t = .purchase) ∨
          (src = .confirmed ∧ tgt2 = .cancelled) ∨
          (src = .shipped ∧ tgt2 = .closed) ∨ (src = .received ∧ tgt2 = .closed)))
    ∧ (∀ s2, transition s o.id tgt actor = .ok s2 → legalEdge o.otype o.status tgt = true)
    ∧ (legalEdge o.otype o.status tgt = false →
        transition s o.id tgt actor = .error .invalidTransition
        ∧ (transitionRun s o.id tgt actor).1 = s
        ∧ orderStatusOf (transitionRun s o.id tgt actor).1 o.id = some o.status) := by
  refine ⟨?_, ?_, ?_⟩
  · intro t src tgt2
    cases t <;> cases src <;> cases tgt2 <;> decide
  · intro s2 h
    obtain ⟨o2, s1, hf2, hleg, -, -⟩ := transition_ok_elim h
    rw [hf] at hf2
    injection hf2 with ho
    subst ho
    exact hleg
  · intro hlegF
    have h1 : transition s o.id tgt actor = .error .invalidTransition := by
      simp [transition, hf, hlegF]
    have h2 : (transitionRun s o.id tgt actor).1 = s := by
      simp [transitionRun, h1]
    refine ⟨h1, h2, ?_⟩
    rw [h2]
    simp [orderStatusOf, hf]

theorem c5_witness :
    transition exState exDraftOrder.id .received "bob" = .error .invalidTransition
    ∧ (transitionRun exState exDraftOrder.id .received "bob").1 = exState
    ∧ orderStatusOf (transitionRun exState exDraftOrder.id .received "bob").1 exDraftOrder.id
        = some exDraftOrder.status :=
  (c5_transition_edges exState exDraftOrder .received "bob" (by decide)).2.2 (by decide)

/-- Claim C6: a successful adjust emits a low-stock notification exactly
when the pre-mutation quantity is strictly above the reorder threshold and
the post-mutation quantity is at or below it; when the item was already at
or below the threshold before the mutation, or stays above it, no
notification is emitted. -/
theorem c6_low_stock_edge (s : InvState) (itemId : Nat) (delta : Int) (reason actor : String)
    (it : InventoryItem) (s2 : InvState) (q : Int)
    (hf : findItem s itemId = some it)
    (h : adjust s itemId delta reason actor = .ok (s2, q)) :
    (s2.notifications = s.notifications ++ [itemId] ↔
       (it.reorderThreshold < it.quantity ∧ q ≤ it.reorderThreshold))
    ∧ ((it.quantity ≤ it.reorderThreshold ∨ it.reorderThreshold < q) →
        s2.notifications = s.notifications) := by
  obtain ⟨it2, hf2, -, -, hq, -, -, -, -, hn⟩ := adjust_ok_elim h
  rw [hf] at hf2
  injection hf2 with hit
  subst hit
  by_cases hc : q ≤ it.reorderThreshold ∧ ¬ it.quantity ≤ it.reorderThreshold
  · rw [hn, if_pos hc]
    obtain ⟨hc1, hc2⟩ := hc
    refine ⟨⟨fun _ => ⟨by omega, hc1⟩, fun _ => rfl⟩, ?_⟩
    intro hcase
    exfalso
    rcases hcase with h1 | h1 <;> omega
  · rw [hn, if_neg hc]
    refine ⟨⟨?_, ?_⟩, fun _ => rfl⟩
    · intro he
      exfalso
      have := congrArg List.length he
      simp at this
    · intro hcond
      exfalso
      exact hc ⟨hcond.2, by omega⟩

theorem c6_witness :
    (c1Result.notifications = exState.notifications ++ [1] ↔
       (exItem1.reorderThreshold < exItem1.quantity ∧ (1 : Int) ≤ exItem1.reorderThreshold))
    ∧ ((exItem1.quantity ≤ exItem1.reorderThreshold ∨ exItem1.reorderThreshold < (1 : Int)) →
        c1Result.notifications = exState.notifications) :=
  c6_low_stock_edge exState 1 (-9) "w" "alice" exItem1 c1Result 1 (by decide) (by rfl)

/-- Claim C7: a successful fulfillment transition (received for a purchase
order, shipped for a sales order) appends exactly one ledger entry per line
item, in order, whose delta is the line quantity for a purchase receipt and
its negation for a sales shipment, and whose reason is tagged with the order
number — the Stock Mutator is invoked exactly once per line item. -/
theorem c7_fulfillment_lines (s : InvState) (o : Order) (tgt : OrderStatus) (actor : String)
    (s2 : InvState)
    (hf : s.orders.find? (fun p => p.id == o.id) = some o)
    (hful : isFulfillmentTarget o.otype tgt = true)
    (h : transition s o.id tgt actor = .ok s2) :
    ∃ es, s2.ledger = s.ledger ++ es ∧
      es.map (fun e => (e.itemId, e.delta, e.reason)) =
        o.lineItems.map (fun li => (li.itemId, lineDelta o.otype li, fulfillReason o.number)) ∧
      es.length = o.lineItems.length := by
  obtain ⟨o2, s1, hf2, hleg, hcase, hs2⟩ := transition_ok_elim h
  rw [hf] at hf2
  injection hf2 with ho
  subst ho
  rcases hcase with ⟨-, ha⟩ | ⟨hnful, -⟩
  · obtain ⟨⟨es, hes, hmap⟩, -, -⟩ := applyLines_ledger o.otype o.number actor o.lineItems s s1 ha
    refine ⟨es, ?_, hmap, ?_⟩
    · rw [hs2]; exact hes
    · have := congrArg List.length hmap
      simpa using this
  · rw [hnful] at hful
    exact absurd hful (by simp)


theorem c7_witness :
    c7Result.ledger.map (fun e => (e.itemId, e.delta, e.reason)) =
      exPurchaseOrder.lineItems.map
        (fun li => (li.itemId, lineDelta exPurchaseOrder.otype li,
          fulfillReason exPurchaseOrder.number)) := by
  obtain ⟨es, h1, h2, -⟩ :=
    c7_fulfillment_lines exState exPurchaseOrder .received "bob" c7Result
      (by decide) (by decide) (by rfl)
  have hes : es = c7Result.ledger := by simpa [exState] using h1.symm
  exact hes ▸ h2

/-- Claim C2: when an order with at least one line item is transitioned to
its fulfillment status and some line item stock mutation fails, the
transition returns FulfillmentFailed naming the offending item, the
transactional run leaves every item quantity and the order status unchanged
(no partial stock application), and the named item is one of the order line
items. -/
theorem c2_fulfillment_rollback (s : InvState) (o : Order) (tgt : OrderStatus)
    (actor : String) (bad : Nat)
    (hf : s.orders.find? (fun p => p.id == o.id) = some o)
    (_hne : o.lineItems ≠ [])
    (hleg : legalEdge o.otype o.status tgt = true)
    (hful : isFulfillmentTarget o.otype tgt = true)
    (hfail : applyLines o.otype o.number actor s o.lineItems
      = .error (.fulfillmentFailed bad)) :
    transition s o.id tgt actor = .error (.fulfillmentFailed bad)
    ∧ (transitionRun s o.id tgt actor).1 = s
    ∧ (∀ i, findQuantity (transitionRun s o.id tgt actor).1 i = findQuantity s i)
    ∧ orderStatusOf (transitionRun s o.id tgt actor).1 o.id = some o.status
    ∧ ∃ li, li ∈ o.lineItems ∧ bad = li.itemId := by
  have h1 : transition s o.id tgt actor = .error (.fulfillmentFailed bad) := by
    simp [transition, hf, hleg, hful, hfail]
  have h2 : (transitionRun s o.id tgt actor).1 = s := by
    simp [transitionRun, h1]
  refine ⟨h1, h2, fun i => by rw [h2], ?_, ?_⟩
  · rw [h2]
    simp [orderStatusOf, hf]
  · exact applyLines_error_item o.otype o.number actor o.lineItems s bad hfail

theorem c2_witness :
    transition exState exSalesOrder.id .shipped "bob" = .error (.fulfillmentFailed 1)
    ∧ (transitionRun exState exSalesOrder.id .shipped "bob").1 = exState
    ∧ findQuantity (transitionRun exState exSalesOrder.id .shipped "bob").1 1
        = findQuantity exState 1
    ∧ orderStatusOf (transitionRun exState exSalesOrder.id .shipped "bob").1 exSalesOrder.id
        = some exSalesOrder.status := by
  have h := c2_fulfillment_rollback exState exSalesOrder .shipped "bob" 1
    (by decide) (by decide) (by decide) (by decide) (by rfl)
  exact ⟨h.1, h.2.1, h.2.2.1 1, h.2.2.2.1⟩

/-- Claim C8: deleting an existing supplier fails with Conflict and changes
no state whenever some inventory item references it or some non-cancelled
order references it, and succeeds, removing the supplier, when no such
reference exists. -/
theorem c8_supplier_guard (s : InvState) (supId : Nat)
    (hmem : s.suppliers.contains supId = true) :
    ((supplierHasItem s supId = true ∨ supplierHasActiveOrder s supId = true) →
       deleteSupplier s supId = .error .conflict
       ∧ (deleteSupplierRun s supId).1 = s)
    ∧ (supplierHasItem s supId = false → supplierHasActiveOrder s supId = false →
       deleteSupplier s supId =
         .ok { s with suppliers := s.suppliers.filter (fun x => x != supId) }) := by
  constructor
  · intro href
    have h1 : deleteSupplier s supId = .error .conflict := by
      unfold deleteSupplier
      rw [if_neg (by simpa using hmem)]
      rw [if_pos (by rcases href with h | h <;> simp [h])]
    exact ⟨h1, by simp [deleteSupplierRun, h1]⟩
  · intro h1 h2
    unfold deleteSupplier
    rw [if_neg (by simpa using hmem), if_neg (by simp [h1, h2])]

theorem c8_witness :
    deleteSupplier exState 7 = .error .conflict
    ∧ deleteSupplier exState 8 =
        .ok { exState with suppliers := exState.suppliers.filter (fun x => x != 8) } :=
  ⟨((c8_supplier_guard exState 7 (by decide)).1 (Or.inl (by decide))).1,
   (c8_supplier_guard exState 8 (by decide)).2 (by decide) (by decide)⟩

/-- Claim C9: the getCurrentUser rejected reducer of the auth slice yields a
state in which user and token are both null and isLoading is false — a
failed current-user fetch fully clears the session — while the login
rejected reducer only records the error message, leaving user and token
untouched. -/
theorem c9_auth_rejected (s : AuthState) (msg : String) :
    (getCurrentUserRejected s).user = none
    ∧ (getCurrentUserRejected s).token = none
    ∧ (getCurrentUserRejected s).isLoading = false
    ∧ (loginRejected s msg).user = s.user
    ∧ (loginRejected s msg).token = s.token
    ∧ (loginRejected s msg).error = some msg := by
  simp [getCurrentUserRejected, loginRejected]

/-- Claim C10: the Sidebar renders the Users navigation link if and only if
the current user role is admin, and renders the Dashboard, Inventory, Orders
and Suppliers links for every user. -/
theorem c10_sidebar_links (u : Option AuthUser) :
    (({ name := "Users", href := "/users" } : NavItem) ∈ renderedNavigation u ↔
       u.map AuthUser.role = some .admin)
    ∧ ({ name := "Dashboard", href := "/dashboard" } : NavItem) ∈ renderedNavigation u
    ∧ ({ name := "Inventory", href := "/inventory" } : NavItem) ∈ renderedNavigation u
    ∧ ({ name := "Orders", href := "/orders" } : NavItem) ∈ renderedNavigation u
    ∧ ({ name := "Suppliers", href := "/suppliers" } : NavItem) ∈ renderedNavigation u := by
  rcases u with _ | user
  · simp [renderedNavigation, sidebarNavigation]
  · rcases hr : user.role <;>
      simp [renderedNavigation, sidebarNavigation, hr]
